import Mathlib

/-
  Verification development for the rov-host media pipeline core.

  Shallow embedding of:
  - src/async_glib.rs        (Future / Promise primitives)
  - src/slave/video.rs       (pipeline builder, branch attach/detach, frame callback)
  - src/slave/slave_video.rs (SlaveVideoModel state controller: StopRecord / StopPipeline)
-/

set_option autoImplicit false

/- ===================================================================
   src/async_glib.rs

   A `Future<T>` holds a single-assignment state cell plus a callback
   list.  A `Promise` owns a glib MainContext channel whose receiver is
   attached with a closure that calls `Future::success` on the first
   message and then returns `Continue(false)`, detaching the receiver
   (async_glib.rs lines 171-182).  `Promise::success(self, value)`
   consumes the promise by move (line 189), so Rust ownership rejects a
   second invocation at compile time; the `Continue(false)` detach is
   the runtime half of the same contract.

   We model the resolution of one promise by the list of values sent on
   its channel (in safe Rust this list has at most one element; we let
   it be arbitrary to show the receiver itself never overwrites).
   =================================================================== -/

/-- State-cell writes performed by the channel receiver of
`Promise::new` (async_glib.rs lines 174-180): the receiver handles one
message, writes the future state once, and detaches
(`Continue(false)`). -/
def receiverWrites {α : Type} (attached : Bool) : List α → Nat
  | [] => 0
  | _ :: r => if attached then 1 + receiverWrites (α := α) false r else receiverWrites (α := α) false r

/-- Resulting future state after the receiver processed the sent
values: `Future::success` stores `Some(Ok(value))` (line 60); the
receiver detaches after the first message. -/
def receiverRun {α : Type} (attached : Bool) (st : Option α) : List α → Option α
  | [] => st
  | x :: r => if attached then receiverRun false (some x) r else receiverRun false st r

/-- The value a promise resolves to, as a function of everything ever
sent on its channel. -/
def promiseResolve {α : Type} (sends : List α) : Option α :=
  receiverRun true none sends

/-- Number of state-cell writes for a given send history. -/
def promiseWrites {α : Type} (sends : List α) : Nat :=
  receiverWrites true sends

/-- A future, abstracted to its resolution time (an abstract discrete
instant) and resolved value.  `async_glib.rs` futures always resolve
exactly once on the main context; the claims quantify over arbitrary
resolution orders via `time`. -/
structure FutureSpec (α : Type) where
  time : Nat
  val : α

/-- `Future::map` (async_glib.rs lines 99-110): the derived future
resolves when the source does, with the transformed value. -/
def mapModel {α β : Type} (f : FutureSpec α) (g : α → β) : FutureSpec β :=
  { time := f.time, val := g f.val }

/-- `Future::flat_map` (async_glib.rs lines 113-124): the continuation
is registered on the source, so the derived future resolves no earlier
than either the source or the future produced by the continuation. -/
def flatMapModel {α β : Type} (f : FutureSpec α) (g : α → FutureSpec β) : FutureSpec β :=
  { time := max f.time (g f.val).time, val := (g f.val).val }

/-- `Future::sequence` (async_glib.rs lines 75-96): drives the iterator
one element at a time; each resolved value is pushed onto the shared
accumulator and only then is the next future pulled, via `flat_map`.
The source pushes in chain order onto a `Vec`, which is the same list
as consing the current value onto the sequence of the remaining
futures. -/
def sequenceModel {α : Type} : List (FutureSpec α) → FutureSpec (List α)
  | [] => { time := 0, val := [] }
  | f :: rest => flatMapModel f (fun v => mapModel (sequenceModel rest) (fun vs => v :: vs))

/- ===================================================================
   src/slave/video.rs — branch attach / detach
   (connect_elements_to_pipeline, lines 43-69;
    disconnect_elements_to_pipeline, lines 71-117)

   The pipeline is modelled by the data the two functions touch:
   the set of elements it owns (by id), the live requested src pads of
   the output tee, the pad links from tee pads to element sink pads,
   the element-to-element links, and the element states.
   =================================================================== -/

/-- GStreamer element states used by these claims. -/
inductive EState
  | null
  | playing
deriving DecidableEq

/-- `element.set_state(v)` / `sync_state_with_parent`: a state-map
update.  Prepending is an extensionally correct map update for
head-first lookup. -/
def setElemState (st : List (Nat × EState)) (e : Nat) (v : EState) : List (Nat × EState) :=
  (e, v) :: st

/-- Current state of an element. -/
def lookupState : List (Nat × EState) → Nat → Option EState
  | [], _ => none
  | (a, v) :: r, e => if a = e then some v else lookupState r e

/-- Set every element of `branch` to state `v` (used both by
`sync_state_with_parent` after attach and by the `set_state(Null)` loop
in the detach continuation, video.rs lines 111-113). -/
def syncStates (st : List (Nat × EState)) (branch : List Nat) (v : EState) : List (Nat × EState) :=
  branch.foldl (fun s e => setElemState s e v) st

/-- Model of the pipeline state touched by attach/detach. -/
structure PMod where
  /-- whether `pipeline.by_name(tee_name)` finds the output tee -/
  teeExists : Bool
  /-- ids of elements currently owned by the pipeline -/
  elems : List Nat
  /-- live requested src pads of the output tee -/
  teePads : List Nat
  /-- next fresh pad id handed out by `request_pad_simple` -/
  nextPad : Nat
  /-- element-to-element links made by `a.link(b)` -/
  links : List (Nat × Nat)
  /-- links from a tee src pad to an element (its sink pad) -/
  padLinks : List (Nat × Nat)
  /-- element states -/
  elemState : List (Nat × EState)
  /-- current run state of the pipeline (parent state for sync) -/
  runState : EState
deriving DecidableEq

/-- The `for elements in elements.windows(2)` loop of
`connect_elements_to_pipeline` (video.rs lines 52-57): add each later
element to the pipeline, then link it to its predecessor.
`pipeline.add` fails on an element the pipeline already owns. -/
def addLinkRest (p : PMod) (a : Nat) : List Nat → Except String PMod
  | [] => Except.ok p
  | b :: r =>
    if b ∈ p.elems then Except.error "Cannot add elements to pipeline"
    else addLinkRest { p with elems := p.elems ++ [b], links := p.links ++ [(a, b)] } b r

/-- `connect_elements_to_pipeline` (video.rs lines 43-69): find the
output tee by name, add the first element, request a fresh src pad from
the tee, add+link the remaining elements pairwise, link the tee pad to
the first element's sink pad, and sync the states of the tee and every
branch element with the parent.  Returns the tee and the requested pad.
On an empty element slice the source would panic at
`elements.first().unwrap()` (line 59); the model aborts with an error
value there. -/
def connect_elements_to_pipeline (p : PMod) (branch : List Nat) : Except String (PMod × Nat) :=
  if p.teeExists = false then Except.error "Cannot find output_tee" else
  match branch with
  | [] => Except.error "empty branch aborts"
  | e0 :: rest =>
    if e0 ∈ p.elems then Except.error "Cannot add the first element to pipeline" else
    match addLinkRest
        { p with elems := p.elems ++ [e0], teePads := p.teePads ++ [p.nextPad],
                 nextPad := p.nextPad + 1 } e0 rest with
    | Except.error s => Except.error s
    | Except.ok p3 =>
      Except.ok
        ({ p3 with
            padLinks := p3.padLinks ++ [(p.nextPad, e0)],
            elemState := syncStates p3.elemState (e0 :: rest) p3.runState }, p.nextPad)

/-- `disconnect_elements_to_pipeline` (video.rs lines 71-117), the part
performed synchronously: unlink the tee pad from the first element's
sink pad, then `remove_pad` releases the pad back to the tee.  The
one-shot EOS probe on the last element's sink pad, the injected EOS
event, and the promise are abstracted; the future's continuation is
`detachFinalize` below. -/
def disconnect_elements_to_pipeline (p : PMod) (teepad : Nat) (branch : List Nat) :
    Except String PMod :=
  match branch with
  | [] => Except.error "empty branch aborts"
  | e0 :: _ =>
    if (teepad, e0) ∈ p.padLinks then
      if teepad ∈ p.teePads then
        Except.ok { p with
          padLinks := p.padLinks.filter (fun q => decide (q ≠ (teepad, e0))),
          teePads := p.teePads.erase teepad }
      else Except.error "cannot remove the pad from the output tee"
    else Except.error "cannot unlink the elements"

/-- The continuation chained on the detach future (video.rs lines
107-114), run after the EOS watch on the branch's last input pad fires:
`pipeline.remove_many` the branch elements and set each to `Null`. -/
def detachFinalize (p : PMod) (branch : List Nat) : PMod :=
  { p with
      elems := p.elems.filter (fun e => decide (e ∉ branch)),
      elemState := syncStates p.elemState branch EState.null }

/- ===================================================================
   src/slave/video.rs — create_pipeline (lines 119-279)

   Element ids, in creation order:
     0 rtspsrc "source"        1 rtph265depay "rtpdepay"
     2 appsink "display"       3 tee "tee_source"
     4 tee "tee_decoded"       5 queue (queue_to_decode)
     6 queue (queue_to_app)    7 videoconvert
     8 h265parse               9 avdec_h265 "video_decoder"
   =================================================================== -/

/-- A build-time operation on the pipeline graph. -/
inductive OpM
  | add (e : Nat)
  | link (a b : Nat)
deriving DecidableEq

/-- A stream URL, reduced to the parts `create_pipeline` reads: the
full location string, the username, and the optional password. -/
structure UrlM where
  location : String
  username : String
  password : Option String
deriving DecidableEq

/-- Properties set on the rtspsrc element (video.rs lines 126-131):
location, user-id, user-pw only when a password is present, latency. -/
def srcPropsOf (url : UrlM) : List (String × String) :=
  [("location", url.location), ("user-id", url.username)] ++
    (match url.password with
      | some pw => [("user-pw", pw)]
      | none => []) ++ [("latency", "0")]

/-- The built pipeline graph: elements (id and factory name), the
ordered add/link operations performed, the rtspsrc properties, and the
caps string forced onto the appsink. -/
structure GraphM where
  elems : List (Nat × String)
  ops : List OpM
  srcProps : List (String × String)
  appsinkCaps : String
deriving DecidableEq

/-- `create_pipeline` (video.rs lines 119-279).  `avail` tells whether
`gst::ElementFactory::make` succeeds for a factory name; each failure
returns the source's descriptive error.  The element set and the
operation order do not depend on the URL; only `srcProps` does.
The rtspsrc has no static src pad, so the link from the source to the
depay element is deferred to a `pad-added` handler (lines 252-271) and
is not a build-time link operation.  Operation order follows the
source: `add_many` of the six top elements (line 176), the videoconvert
(179), the depay elements (182-184), the decoder elements (187-189),
then all the pairwise and tee links (lines 192-277). -/
def createPipelineM (avail : String → Bool) (url : UrlM) : Except String GraphM :=
  if avail "rtspsrc" = false then Except.error "Missing element: rtspsrc" else
  if avail "rtph265depay" = false then Except.error "Missing element: rtph265depay" else
  if avail "appsink" = false then Except.error "Missing element: appsink" else
  if avail "tee" = false then Except.error "Missing element: tee" else
  if avail "queue" = false then Except.error "Missing element: queue" else
  if avail "videoconvert" = false then Except.error "Missing element: videoconvert" else
  if avail "h265parse" = false then Except.error "Missing element: h265parse" else
  if avail "avdec_h265" = false then Except.error "Missing element: avdec_h265" else
  Except.ok
    { elems := [(0, "rtspsrc"), (1, "rtph265depay"), (2, "appsink"), (3, "tee"), (4, "tee"),
                (5, "queue"), (6, "queue"), (7, "videoconvert"), (8, "h265parse"),
                (9, "avdec_h265")],
      ops := [OpM.add 0, OpM.add 2, OpM.add 4, OpM.add 3, OpM.add 6, OpM.add 5, OpM.add 7,
              OpM.add 1, OpM.add 8, OpM.add 9,
              OpM.link 8 9, OpM.link 5 8, OpM.link 9 4, OpM.link 6 7, OpM.link 7 2,
              OpM.link 3 5, OpM.link 4 6, OpM.link 1 3],
      srcProps := srcPropsOf url,
      appsinkCaps := "video/x-raw, format=RGB" }

/-- Scans the operation list checking that both endpoints of every link
were added to the pipeline by an earlier operation. -/
def addsBeforeLinksAux (added : List Nat) : List OpM → Bool
  | [] => true
  | OpM.add e :: r => addsBeforeLinksAux (e :: added) r
  | OpM.link a b :: r => added.contains a && added.contains b && addsBeforeLinksAux added r

/-- Every linked element was added to the pipeline first. -/
def addsBeforeLinks (ops : List OpM) : Bool :=
  addsBeforeLinksAux [] ops

/-- Number of elements built from a given factory. -/
def countFactory (g : GraphM) (f : String) : Nat :=
  (g.elems.filter (fun e => decide (e.2 = f))).length

/- ===================================================================
   src/slave/video.rs — frame extraction callback
   (attach_pipeline_callback, lines 350-421;
    correct_underwater_color, lines 281-332; apply_clahe, lines 334-348)

   The OpenCV numeric transforms are external to the repository; only
   their control flow matters to the claims.  Each fallible OpenCV call
   that the source unwraps with `expect`/`unwrap` is modelled by a
   success flag in `CvEnv`; the numeric result of a successful
   transform is an abstract function of the input bytes.
   =================================================================== -/

/-- The selectable post-process algorithm (video.rs lines 38-41). -/
inductive VideoAlgorithm
  | CLAHE
deriving DecidableEq

/-- Success flags for every fallible OpenCV call on the post-process
path, one per `expect`/`unwrap` site, plus abstract value functions for
the two transforms. -/
structure CvEnv where
  /-- `src.convert_to(.., CV_32FC3, ..)` (video.rs line 286) -/
  convert32Ok : Bool
  /-- `(image / 255.0).into_result().unwrap()` (line 289) -/
  divOk : Bool
  /-- `cv::core::split` (line 295) -/
  splitOk : Bool
  /-- `cv::imgproc::resize` (line 305) -/
  resizeOk : Bool
  /-- `cv::core::mean_std_dev` (line 308) -/
  meanStdOk : Bool
  /-- the per-channel normalisation unwraps (line 317) -/
  normOk : Bool
  /-- `cv::core::merge` (line 322) -/
  mergeOk : Bool
  /-- `image.convert_to(.., CV_8UC3, ..)` (line 328) -/
  convert8Ok : Bool
  /-- `cv::core::split` in apply_clahe (line 338) -/
  claheSplitOk : Bool
  /-- `imgproc::create_clahe` (line 340); on failure the source skips
  the per-channel application without panicking -/
  claheCreateOk : Bool
  /-- `clahe.apply` (line 342) -/
  claheApplyOk : Bool
  /-- `cv::core::merge` in apply_clahe (line 346) -/
  claheMergeOk : Bool
  /-- bytes produced by a successful color correction -/
  cucResult : List Nat → List Nat
  /-- bytes produced by a successful CLAHE application -/
  claheResult : List Nat → List Nat

/-- `correct_underwater_color` (video.rs lines 281-332).  Every
fallible step is unwrapped with `expect`; `none` models the panic. -/
def correct_underwater_color (env : CvEnv) (m : List Nat) : Option (List Nat) :=
  if env.convert32Ok && env.divOk && env.splitOk && env.resizeOk && env.meanStdOk
      && env.normOk && env.mergeOk && env.convert8Ok
  then some (env.cucResult m) else none

/-- `apply_clahe` (video.rs lines 334-348): split panics on failure; a
failed `create_clahe` silently skips the equalisation; `apply` and
`merge` panic on failure. -/
def apply_clahe (env : CvEnv) (m : List Nat) : Option (List Nat) :=
  if env.claheSplitOk = false then none
  else if env.claheCreateOk then
    if env.claheApplyOk = false then none
    else if env.claheMergeOk = false then none
    else some (env.claheResult m)
  else if env.claheMergeOk = false then none
  else some m

/-- A mapped GStreamer buffer: whether `map_readable` succeeds, and the
mapped bytes. -/
structure BufferM where
  mapOk : Bool
  bytes : List Nat
deriving DecidableEq

/-- A sample pulled from the appsink; `buffer()` may be absent. -/
structure SampleM where
  buffer : Option BufferM
deriving DecidableEq

/-- GStreamer flow errors relevant to the callback.  The source uses
`Flushing`, `Eos`, `Error` and `CustomError`; `NotNegotiated` exists in
GStreamer but is never returned by this code. -/
inductive FlowErr
  | flushing | eos | error | customError | notNegotiated
deriving DecidableEq

/-- Outcome of one `new_sample` invocation: a returned flow value
(`flow = none` is `FlowSuccess::Ok`) together with the frame bytes sent
to the display channel, or a panic on the delivery thread. -/
inductive CbOut
  | ret (sent : Option (List Nat)) (flow : Option FlowErr)
  | panicked
deriving DecidableEq

/-- The algorithm dispatch inside `new_sample` (video.rs lines
403-414): on a poisoned config lock the source keeps the mat
unchanged; with `CLAHE` selected it runs
`apply_clahe(correct_underwater_color(mat))`; otherwise the mat is
passed through unchanged. -/
def postProcessStep (env : CvEnv) (lockOk : Bool) (algorithms : List VideoAlgorithm)
    (mat : List Nat) : Option (List Nat) :=
  if lockOk then
    match algorithms.head? with
    | some VideoAlgorithm.CLAHE =>
      match correct_underwater_color env mat with
      | none => none
      | some m2 => apply_clahe env m2
    | none => some mat
  else some mat

/-- The `new_sample` callback (video.rs lines 376-418).
In source order: read the cached frame size or return
`FlowError::Flushing`; pull the sample or return `FlowError::Eos`; get
the buffer or return `FlowError::Error`; map it readable or return
`FlowError::Error`; build the Mat over the mapped bytes or return
`FlowError::CustomError` (`matOk`); run the post-process dispatch
(panics propagate); `sender.send(mat).unwrap()` panics on failure. -/
def new_sample_cb (env : CvEnv) (frameSize : Option (Nat × Nat)) (pulled : Option SampleM)
    (algorithms : List VideoAlgorithm) (lockOk matOk sendOk : Bool) : CbOut :=
  match frameSize with
  | none => CbOut.ret none (some FlowErr.flushing)
  | some _ =>
    match pulled with
    | none => CbOut.ret none (some FlowErr.eos)
    | some sample =>
      match sample.buffer with
      | none => CbOut.ret none (some FlowErr.error)
      | some buffer =>
        if buffer.mapOk = false then CbOut.ret none (some FlowErr.error)
        else if matOk = false then CbOut.ret none (some FlowErr.customError)
        else
          match postProcessStep env lockOk algorithms buffer.bytes with
          | none => CbOut.panicked
          | some m2 => if sendOk then CbOut.ret (some m2) none else CbOut.panicked

/-- An event delivered to the `new_event` callback: a caps event whose
structure may or may not carry both width and height, or anything
else. -/
inductive EventM
  | caps (size : Option (Nat × Nat))
  | other
deriving DecidableEq

/-- The `new_event` callback (video.rs lines 358-375): cache the
negotiated dimensions when a caps event carries both width and height;
leave the cache unchanged otherwise. -/
def new_event_cb (frameSize : Option (Nat × Nat)) (e : EventM) : Option (Nat × Nat) :=
  match e with
  | EventM.caps (some wh) => some wh
  | EventM.caps none => frameSize
  | EventM.other => frameSize

/-- One appsink delivery: an event or a sample. -/
inductive AppEv
  | ev (e : EventM)
  | sample (pulled : Option SampleM)
deriving DecidableEq

/-- Runs the two callbacks over a delivery sequence, threading the
shared `frame_size` cell, and collects each sample outcome. -/
def runCb (env : CvEnv) (algorithms : List VideoAlgorithm) (lockOk matOk sendOk : Bool) :
    Option (Nat × Nat) → List AppEv → List CbOut
  | _, [] => []
  | fs, AppEv.ev e :: r => runCb env algorithms lockOk matOk sendOk (new_event_cb fs e) r
  | fs, AppEv.sample s :: r =>
    new_sample_cb env fs s algorithms lockOk matOk sendOk ::
      runCb env algorithms lockOk matOk sendOk fs r

/-- True of deliveries that are not a caps event carrying
dimensions. -/
def noCapsSize : AppEv → Bool
  | AppEv.ev (EventM.caps (some _)) => false
  | _ => true

/- ===================================================================
   src/slave/slave_video.rs — SlaveVideoModel, StopRecord arm
   (lines 169-190)
   =================================================================== -/

/-- Messages the video model sends to its parent (`SlaveMsg`). -/
inductive MsgM
  | pollingChanged (b : Bool)
  | recordingChanged (b : Bool)
  | errorMessage (s : String)
  | showToastMessage (s : String)
deriving DecidableEq

/-- The fields of `SlaveVideoModel` (slave_video.rs lines 48-58);
pixbuf, config and preferences are abstracted to ids, the pipeline to
the attach/detach model. -/
structure SVModel where
  pixbuf : Option Nat
  pipeline : Option PMod
  config : Nat
  record_handle : Option (Nat × List Nat)
  preferences : Nat
deriving DecidableEq

/-- Synchronous effect of one `StopRecord` message. -/
structure StopRecordOut where
  model : SVModel
  /-- messages sent to the parent during the update call itself -/
  emitted : List MsgM
  /-- whether a drain continuation was registered; that continuation
  (slave_video.rs lines 176-185) is the only code that ever sends
  `RecordingChanged(false)` for this message or resolves the supplied
  promise -/
  drainRegistered : Bool
deriving DecidableEq

/-- The `StopRecord` arm (slave_video.rs lines 169-190): with no
pipeline, nothing happens at all (the supplied promise is dropped
unresolved); with a pipeline but no record handle, only
`set_record_handle(None)` runs (a no-op on an already-empty handle);
with both, the branch is disconnected and the drain continuation is
registered, then the handle is cleared. -/
def updateStopRecord (m : SVModel) (promise : Option Unit) : StopRecordOut :=
  match m.pipeline with
  | none => { model := m, emitted := [], drainRegistered := false }
  | some _ =>
    match m.record_handle with
    | none => { model := { m with record_handle := none }, emitted := [], drainRegistered := false }
    | some _ => { model := { m with record_handle := none }, emitted := [], drainRegistered := true }

/- ===================================================================
   src/slave/slave_video.rs — StopPipeline arm (lines 258-320)

   Temporal model.  All continuations run serialized on the glib main
   context; the uncertain data are the instants at which the two EOS
   probes fire.  Events are tagged with the instant at which they run:

   - at `td`, the recording drain continuation runs: it sends
     `RecordingChanged(false)` and then resolves the record promise
     (slave_video.rs lines 176-185);
   - at `tm`, the EOS probe on the display sink pad resolves the main
     promise (lines 281-293);
   - once both futures are resolved (instant `max td tm`), the
     `Future::sequence` continuation sends `PollingChanged(false)` and
     sets the pipeline to Null (lines 297-302) — `setNullSeq`;
   - at instant 10, the `timeout_add_local_once` closure (lines
     303-313) sends `PollingChanged(false)`, `RecordingChanged(false)`
     when a recording was active, the toast warning, and sets the
     pipeline to Null — `setNullTimeout`.  The timeout source is never
     cancelled; its body (like the sequence continuation's) runs only
     if the weak pipeline reference still upgrades (`aliveTO`,
     `aliveSeq`).

   When the pipeline is not Playing or the EOS event is not accepted,
   the `else` branch (lines 314-318) runs synchronously instead.
   =================================================================== -/

/-- Observable events of the StopPipeline model. -/
inductive Ev
  | pollingChanged (b : Bool)
  | recordingChanged (b : Bool)
  | showToast
  | resolveRecord
  | resolveMain
  | setNullSeq
  | setNullTimeout
  | setNullDirect
deriving DecidableEq

/-- Stable insertion into a time-sorted group list: an earlier group is
kept before a later-inserted group with the same instant. -/
def oinsert (x : Nat × List Ev) : List (Nat × List Ev) → List (Nat × List Ev)
  | [] => [x]
  | y :: ys => if x.1 ≤ y.1 then x :: y :: ys else y :: oinsert x ys

/-- Stable insertion sort of event groups by instant. -/
def osort : List (Nat × List Ev) → List (Nat × List Ev)
  | [] => []
  | x :: xs => oinsert x (osort xs)

/-- Flattens sorted groups into a timed event trace. -/
def flattenGroups : List (Nat × List Ev) → List (Nat × Ev)
  | [] => []
  | (t, evs) :: r => evs.map (fun e => (t, e)) ++ flattenGroups r

/-- The trace of the StopPipeline arm, given whether the pipeline was
Playing and accepted the EOS event, whether a recording was active,
the instants `td` (recording drain EOS observed) and `tm` (main EOS
observed), and whether the weak pipeline reference still upgrades in
the sequence continuation and in the timeout closure. -/
def stopPipelineTrace (playing recording : Bool) (td tm : Nat) (aliveSeq aliveTO : Bool) :
    List (Nat × Ev) :=
  if playing then
    flattenGroups (osort (
      (if recording then [(td, [Ev.recordingChanged false, Ev.resolveRecord])] else []) ++
      [(tm, [Ev.resolveMain])] ++
      [((if recording then max td tm else tm),
        if aliveSeq then [Ev.pollingChanged false, Ev.setNullSeq] else [])] ++
      [(10, if aliveTO then
              [Ev.pollingChanged false] ++
                (if recording then [Ev.recordingChanged false] else []) ++
                [Ev.showToast, Ev.setNullTimeout]
            else [])]))
  else
    [(0, Ev.pollingChanged false), (0, Ev.recordingChanged false), (0, Ev.setNullDirect)]

/-- Scanner: every event satisfying `b` is preceded (strictly earlier
in the trace) by an event satisfying `a`; `seen` records whether an
`a`-event has occurred. -/
def precededByAux (a b : Ev → Bool) (seen : Bool) : List (Nat × Ev) → Bool
  | [] => true
  | p :: r => (!(b p.2) || seen) && precededByAux a b (seen || a p.2) r

/-- Every `b`-event in the trace has an earlier `a`-event. -/
def precededBy (a b : Ev → Bool) (tr : List (Nat × Ev)) : Bool :=
  precededByAux a b false tr

/-- The recording-stopped notification. -/
def isRecordingStopped : Ev → Bool
  | Ev.recordingChanged false => true
  | _ => false

/-- Any transition of the pipeline to the Null state. -/
def isSetNull : Ev → Bool
  | Ev.setNullSeq => true
  | Ev.setNullTimeout => true
  | Ev.setNullDirect => true
  | _ => false

/-- Resolution of the record-drain future. -/
def isResolveRecord : Ev → Bool
  | Ev.resolveRecord => true
  | _ => false

/-- Resolution of the main end-of-stream future. -/
def isResolveMain : Ev → Bool
  | Ev.resolveMain => true
  | _ => false

/-- The Null transition performed by the `Future::sequence`
continuation. -/
def isSetNullSeq : Ev → Bool
  | Ev.setNullSeq => true
  | _ => false

/-- Number of toast warnings in a trace. -/
def countToast : List (Nat × Ev) → Nat
  | [] => 0
  | p :: r => (if p.2 = Ev.showToast then 1 else 0) + countToast r

/-- Whether the trace contains event `e` at instant `t`. -/
def containsEv (t : Nat) (e : Ev) : List (Nat × Ev) → Bool
  | [] => false
  | p :: r => (decide (p.1 = t) && decide (p.2 = e)) || containsEv t e r

/- ===================================================================
   Theorems
   =================================================================== -/

theorem receiverRun_false {α : Type} (st : Option α) (r : List α) :
    receiverRun false st r = st := by
  induction r with
  | nil => rfl
  | cons x r ih => simp [receiverRun, ih]

theorem receiverWrites_false {α : Type} (r : List α) :
    receiverWrites (α := α) false r = 0 := by
  induction r with
  | nil => rfl
  | cons x r ih => simp [receiverWrites, ih]

/-- C4: `Promise::success` resolves the cell at most once.  The state
cell is written at most one time no matter what is sent on the promise
channel, and the resolved value is always the first value sent — a
later send can never overwrite it, because the channel receiver
detaches (`Continue(false)`) after the first message; a second
`success` call on the same promise is additionally rejected at compile
time since `Promise::success(self, value)` consumes the promise. -/
theorem c4_promise_success_at_most_once :
    (∀ (sends : List Nat), promiseWrites sends ≤ 1) ∧
    (∀ (v : Nat) (rest : List Nat), promiseResolve (v :: rest) = some v) ∧
    promiseResolve ([] : List Nat) = none := by
  refine ⟨?_, ?_, rfl⟩
  · intro sends
    cases sends with
    | nil => simp [promiseWrites, receiverWrites]
    | cons x r => simp [promiseWrites, receiverWrites, receiverWrites_false]
  · intro v rest
    simp [promiseResolve, receiverRun, receiverRun_false]

/-- C3: `Future::sequence` yields the values of its input futures in
input order, regardless of the resolution instants (in particular for
three futures resolving in the order f2, f3, f1), and the result
resolves no earlier than any input future — iteration pulls the next
future only after the current one resolves. -/
theorem c3_sequence_preserves_input_order :
    (∀ (fs : List (FutureSpec Nat)),
      (sequenceModel fs).val = fs.map FutureSpec.val ∧
        ∀ f ∈ fs, f.time ≤ (sequenceModel fs).time) ∧
    (∀ v1 v2 v3 : Nat,
      (sequenceModel [⟨3, v1⟩, ⟨1, v2⟩, ⟨2, v3⟩]).val = [v1, v2, v3]) := by
  constructor
  · intro fs
    induction fs with
    | nil => exact ⟨rfl, by intro f hf; cases hf⟩
    | cons f rest ih =>
      constructor
      · simp [sequenceModel, flatMapModel, mapModel, ih.1]
      · intro g hg
        have htime : (sequenceModel (f :: rest)).time = max f.time (sequenceModel rest).time := rfl
        rw [htime]
        rcases List.mem_cons.mp hg with h | h
        · subst h; exact Nat.le_max_left _ _
        · exact le_trans (ih.2 g h) (Nat.le_max_right _ _)
  · intro v1 v2 v3
    rfl

/-- C9: with no post-process algorithm selected in the config, the
frame forwarded to the display channel by `new_sample` is byte-for-byte
the mapped input buffer — the post-process step is the identity. -/
theorem c9_no_algorithm_is_identity (env : CvEnv) (wh : Nat × Nat) (bytes : List Nat)
    (lockOk : Bool) :
    new_sample_cb env (some wh) (some { buffer := some { mapOk := true, bytes := bytes } })
      [] lockOk true true = CbOut.ret (some bytes) none := by
  cases lockOk <;> rfl

/-- C10: a `StopRecord` handled with no pipeline, or with a pipeline
but no record handle, is a silent no-op: the model is unchanged (the
cleared record handle was already empty), no message is sent to the
parent, and no drain continuation is registered — so a supplied
completion promise is dropped unresolved. -/
theorem c10_stop_record_noop (m : SVModel) (promise : Option Unit)
    (h : m.pipeline = none ∨ m.record_handle = none) :
    updateStopRecord m promise = { model := m, emitted := [], drainRegistered := false } := by
  rcases h with h | h
  · simp [updateStopRecord, h]
  · cases m with
    | mk pix pl cf rh pref =>
      simp only at h
      subst h
      cases pl <;> rfl

def c10mW : SVModel :=
  { pixbuf := none, pipeline := none, config := 0, record_handle := none, preferences := 0 }

/-- Witness for C10 at a concrete model with no pipeline. -/
theorem c10_stop_record_noop_witness :
    (c10mW.pipeline = none ∨ c10mW.record_handle = none) ∧
    updateStopRecord c10mW (some ()) =
      { model := c10mW, emitted := [], drainRegistered := false } :=
  ⟨Or.inl rfl, c10_stop_record_noop c10mW (some ()) (Or.inl rfl)⟩

def c5env : CvEnv :=
  { convert32Ok := true, divOk := true, splitOk := true, resizeOk := true, meanStdOk := true,
    normOk := true, mergeOk := true, convert8Ok := true, claheSplitOk := true,
    claheCreateOk := true, claheApplyOk := true, claheMergeOk := true,
    cucResult := fun m => m, claheResult := fun m => m }

/-- C5 counterexample: a sample delivered before any caps event is
dropped without forwarding a frame, but the flow signal the callback
returns is `FlowError::Flushing` (video.rs line 378), not the
"not negotiated" flow signal the claim names. -/
theorem c5_counterexample :
    new_sample_cb c5env none (some { buffer := some { mapOk := true, bytes := [1, 2, 3] } })
      [] true true true = CbOut.ret none (some FlowErr.flushing) ∧
    FlowErr.flushing ≠ FlowErr.notNegotiated :=
  ⟨rfl, by decide⟩

/-- C5 (amended): for every delivery sequence containing no caps event
with dimensions, every sample outcome forwards no frame and returns the
`Flushing` flow signal — a transient not-ready drop, not a crash. -/
theorem c5_no_frame_before_caps (env : CvEnv) (algorithms : List VideoAlgorithm)
    (lockOk matOk sendOk : Bool) (evs : List AppEv)
    (h : evs.all noCapsSize = true) :
    (runCb env algorithms lockOk matOk sendOk none evs).all
      (fun o => o == CbOut.ret none (some FlowErr.flushing)) = true := by
  induction evs with
  | nil => rfl
  | cons e r ih =>
    rw [List.all_cons, Bool.and_eq_true] at h
    cases e with
    | ev ee =>
      have hcache : new_event_cb none ee = none := by
        cases ee with
        | caps sz =>
          cases sz with
          | none => rfl
          | some wh => simp [noCapsSize] at h
        | other => rfl
      simpa [runCb, hcache] using ih h.2
    | sample s =>
      have hhead : new_sample_cb env none s algorithms lockOk matOk sendOk
          = CbOut.ret none (some FlowErr.flushing) := rfl
      simp [runCb, List.all_cons, hhead, ih h.2]

def c5evsW : List AppEv :=
  [AppEv.ev EventM.other, AppEv.sample (some { buffer := some { mapOk := true, bytes := [0] } })]

/-- Witness for the amended C5 on a concrete caps-free delivery
sequence. -/
theorem c5_no_frame_before_caps_witness :
    c5evsW.all noCapsSize = true ∧
    (runCb c5env [] true true true none c5evsW).all
      (fun o => o == CbOut.ret none (some FlowErr.flushing)) = true :=
  ⟨by decide, c5_no_frame_before_caps c5env [] true true true c5evsW (by decide)⟩

/-- C7: with all required element factories available, `create_pipeline`
succeeds for every URL and the resulting graph has exactly one source,
one depacketizer, one parser, one decoder, two tees, one appsink, and
every element is added to the pipeline before any link touches it. -/
theorem c7_create_pipeline_structure (avail : String → Bool) (url : UrlM)
    (h1 : avail "rtspsrc" = true) (h2 : avail "rtph265depay" = true)
    (h3 : avail "appsink" = true) (h4 : avail "tee" = true)
    (h5 : avail "queue" = true) (h6 : avail "videoconvert" = true)
    (h7 : avail "h265parse" = true) (h8 : avail "avdec_h265" = true) :
    ∃ g, createPipelineM avail url = Except.ok g ∧
      countFactory g "rtspsrc" = 1 ∧ countFactory g "rtph265depay" = 1 ∧
      countFactory g "h265parse" = 1 ∧ countFactory g "avdec_h265" = 1 ∧
      countFactory g "tee" = 2 ∧ countFactory g "appsink" = 1 ∧
      addsBeforeLinks g.ops = true := by
  have hg : createPipelineM avail url = Except.ok
      { elems := [(0, "rtspsrc"), (1, "rtph265depay"), (2, "appsink"), (3, "tee"), (4, "tee"),
                  (5, "queue"), (6, "queue"), (7, "videoconvert"), (8, "h265parse"),
                  (9, "avdec_h265")],
        ops := [OpM.add 0, OpM.add 2, OpM.add 4, OpM.add 3, OpM.add 6, OpM.add 5, OpM.add 7,
                OpM.add 1, OpM.add 8, OpM.add 9,
                OpM.link 8 9, OpM.link 5 8, OpM.link 9 4, OpM.link 6 7, OpM.link 7 2,
                OpM.link 3 5, OpM.link 4 6, OpM.link 1 3],
        srcProps := srcPropsOf url,
        appsinkCaps := "video/x-raw, format=RGB" } := by
    simp [createPipelineM, h1, h2, h3, h4, h5, h6, h7, h8]
  exact ⟨_, hg, rfl, rfl, rfl, rfl, rfl, rfl, rfl⟩

def c7avail : String → Bool := fun _ => true

def c7url : UrlM :=
  { location := "rtsp://192.168.137.219:8554/test", username := "admin", password := some "pw" }

/-- Witness for C7 at a concrete availability map and URL. -/
theorem c7_create_pipeline_structure_witness :
    c7avail "rtspsrc" = true ∧
    (∃ g, createPipelineM c7avail c7url = Except.ok g ∧
      countFactory g "rtspsrc" = 1 ∧ countFactory g "rtph265depay" = 1 ∧
      countFactory g "h265parse" = 1 ∧ countFactory g "avdec_h265" = 1 ∧
      countFactory g "tee" = 2 ∧ countFactory g "appsink" = 1 ∧
      addsBeforeLinks g.ops = true) :=
  ⟨rfl, c7_create_pipeline_structure c7avail c7url rfl rfl rfl rfl rfl rfl rfl rfl⟩

def c8envBad : CvEnv :=
  { convert32Ok := false, divOk := true, splitOk := true, resizeOk := true, meanStdOk := true,
    normOk := true, mergeOk := true, convert8Ok := true, claheSplitOk := true,
    claheCreateOk := true, claheApplyOk := true, claheMergeOk := true,
    cucResult := fun m => m, claheResult := fun m => m }

/-- C8 counterexample: with the CLAHE algorithm selected and the first
OpenCV conversion inside `correct_underwater_color` failing, the
callback panics on the delivery thread (the source unwraps the result
with `expect`, video.rs line 286) instead of returning a flow-control
error value. -/
theorem c8_counterexample :
    new_sample_cb c8envBad (some (1, 1))
        (some { buffer := some { mapOk := true, bytes := [0] } })
        [VideoAlgorithm.CLAHE] true true true = CbOut.panicked ∧
    CbOut.panicked ≠ CbOut.ret none (some FlowErr.error) :=
  ⟨rfl, by decide⟩

/-- C8 (amended): on the sample path, a missing buffer, a failed
read-only map and a failed Mat construction each return a flow-control
error value without forwarding a frame; but a failure inside the
post-process algorithms or a failed send to the display channel panics
(`expect`/`unwrap` in the source) rather than returning a flow
error. -/
theorem c8_failure_paths :
    (∀ (env : CvEnv) (wh : Nat × Nat) (alg : List VideoAlgorithm) (lk mk2 sk : Bool),
      new_sample_cb env (some wh) (some { buffer := none }) alg lk mk2 sk
        = CbOut.ret none (some FlowErr.error)) ∧
    (∀ (env : CvEnv) (wh : Nat × Nat) (alg : List VideoAlgorithm) (bytes : List Nat)
        (lk mk2 sk : Bool),
      new_sample_cb env (some wh) (some { buffer := some { mapOk := false, bytes := bytes } })
          alg lk mk2 sk = CbOut.ret none (some FlowErr.error)) ∧
    (∀ (env : CvEnv) (wh : Nat × Nat) (alg : List VideoAlgorithm) (bytes : List Nat)
        (lk sk : Bool),
      new_sample_cb env (some wh) (some { buffer := some { mapOk := true, bytes := bytes } })
          alg lk false sk = CbOut.ret none (some FlowErr.customError)) ∧
    (∀ (env : CvEnv) (wh : Nat × Nat) (bytes : List Nat) (sk : Bool),
      env.convert32Ok = false →
        new_sample_cb env (some wh) (some { buffer := some { mapOk := true, bytes := bytes } })
          [VideoAlgorithm.CLAHE] true true sk = CbOut.panicked) ∧
    (∀ (env : CvEnv) (wh : Nat × Nat) (bytes : List Nat),
      new_sample_cb env (some wh) (some { buffer := some { mapOk := true, bytes := bytes } })
        [] true true false = CbOut.panicked) := by
  refine ⟨?_, ?_, ?_, ?_, ?_⟩
  · intro env wh alg lk mk2 sk; rfl
  · intro env wh alg bytes lk mk2 sk; rfl
  · intro env wh alg bytes lk sk; rfl
  · intro env wh bytes sk h
    simp [new_sample_cb, postProcessStep, correct_underwater_color, h]
  · intro env wh bytes; rfl

/-- Witness for the amended C8, one concrete input per failure path. -/
theorem c8_failure_paths_witness :
    new_sample_cb c8envBad (some (1, 1)) (some { buffer := none }) [] true true true
      = CbOut.ret none (some FlowErr.error) ∧
    new_sample_cb c8envBad (some (1, 1))
        (some { buffer := some { mapOk := false, bytes := [0] } }) [] true true true
      = CbOut.ret none (some FlowErr.error) ∧
    new_sample_cb c8envBad (some (1, 1))
        (some { buffer := some { mapOk := true, bytes := [0] } }) [] true false true
      = CbOut.ret none (some FlowErr.customError) ∧
    (c8envBad.convert32Ok = false ∧
      new_sample_cb c8envBad (some (1, 1))
          (some { buffer := some { mapOk := true, bytes := [0] } })
          [VideoAlgorithm.CLAHE] true true true = CbOut.panicked) ∧
    new_sample_cb c8envBad (some (1, 1))
        (some { buffer := some { mapOk := true, bytes := [0] } }) [] true true false
      = CbOut.panicked :=
  ⟨c8_failure_paths.1 c8envBad (1, 1) [] true true true,
   c8_failure_paths.2.1 c8envBad (1, 1) [] [0] true true true,
   c8_failure_paths.2.2.1 c8envBad (1, 1) [] [0] true true,
   ⟨rfl, c8_failure_paths.2.2.2.1 c8envBad (1, 1) [0] true rfl⟩,
   c8_failure_paths.2.2.2.2 c8envBad (1, 1) [0]⟩

theorem addLinkRest_preserves (l : List Nat) :
    ∀ (p : PMod) (a : Nat) (q : PMod), addLinkRest p a l = Except.ok q →
      q.teePads = p.teePads ∧ q.padLinks = p.padLinks := by
  induction l with
  | nil =>
    intro p a q h
    simp only [addLinkRest, Except.ok.injEq] at h
    subst h
    exact ⟨rfl, rfl⟩
  | cons b r ih =>
    intro p a q h
    simp only [addLinkRest] at h
    by_cases hb : b ∈ p.elems
    · rw [if_pos hb] at h; simp at h
    · rw [if_neg hb] at h
      simpa using ih _ _ _ h

theorem lookupState_syncStates_of_lookup (v : EState) (e : Nat) (r : List Nat) :
    ∀ (st : List (Nat × EState)), lookupState st e = some v →
      lookupState (syncStates st r v) e = some v := by
  induction r with
  | nil => intro st h; exact h
  | cons x xs ih =>
    intro st h
    show lookupState (syncStates (setElemState st x v) xs v) e = some v
    apply ih
    by_cases hx : x = e
    · simp [setElemState, lookupState, hx]
    · simp [setElemState, lookupState, hx, h]

theorem lookupState_syncStates (v : EState) (e : Nat) (branch : List Nat) :
    ∀ (st : List (Nat × EState)), e ∈ branch →
      lookupState (syncStates st branch v) e = some v := by
  induction branch with
  | nil => intro st h; cases h
  | cons x xs ih =>
    intro st h
    show lookupState (syncStates (setElemState st x v) xs v) e = some v
    by_cases hx : e ∈ xs
    · exact ih _ hx
    · have hex : e = x := by
        rcases List.mem_cons.mp h with h1 | h1
        · exact h1
        · exact absurd h1 hx
      apply lookupState_syncStates_of_lookup
      simp [setElemState, lookupState, hex]

/-- C2: a successful attach of a recording branch grows the tee's live
requested-pad list by exactly one; the subsequent detach of that branch
succeeds, shrinks the pad list by exactly one, and once the detach
future's continuation has run, no branch element remains in the
pipeline and every branch element has been reset to the Null state. -/
theorem c2_attach_detach (p : PMod) (branch : List Nat) (p1 : PMod) (pad : Nat)
    (hc : connect_elements_to_pipeline p branch = Except.ok (p1, pad)) :
    p1.teePads.length = p.teePads.length + 1 ∧
    ∃ p2, disconnect_elements_to_pipeline p1 pad branch = Except.ok p2 ∧
      p2.teePads.length + 1 = p1.teePads.length ∧
      ∀ e ∈ branch, e ∉ (detachFinalize p2 branch).elems ∧
        lookupState (detachFinalize p2 branch).elemState e = some EState.null := by
  cases branch with
  | nil =>
    simp only [connect_elements_to_pipeline] at hc
    by_cases hte : p.teeExists = false
    · rw [if_pos hte] at hc; simp at hc
    · rw [if_neg hte] at hc; simp at hc
  | cons e0 rest =>
    simp only [connect_elements_to_pipeline] at hc
    by_cases hte : p.teeExists = false
    · rw [if_pos hte] at hc; simp at hc
    · rw [if_neg hte] at hc
      by_cases he0 : e0 ∈ p.elems
      · rw [if_pos he0] at hc; simp at hc
      · rw [if_neg he0] at hc
        cases har : addLinkRest
            { p with elems := p.elems ++ [e0], teePads := p.teePads ++ [p.nextPad],
                     nextPad := p.nextPad + 1 } e0 rest with
        | error s => rw [har] at hc; simp at hc
        | ok p3 =>
          rw [har] at hc
          simp only [Except.ok.injEq, Prod.mk.injEq] at hc
          obtain ⟨hp1, hpad⟩ := hc
          have hpres := addLinkRest_preserves rest _ e0 p3 har
          have hTP : p1.teePads = p.teePads ++ [pad] := by
            rw [← hp1, ← hpad]; exact hpres.1
          have hPL : p1.padLinks = p3.padLinks ++ [(pad, e0)] := by
            rw [← hp1, ← hpad]
          have hm1 : (pad, e0) ∈ p1.padLinks := by rw [hPL]; simp
          have hm2 : pad ∈ p1.teePads := by rw [hTP]; simp
          have hlen1 : p1.teePads.length = p.teePads.length + 1 := by
            rw [hTP]; simp
          refine ⟨hlen1,
            { p1 with
                padLinks := p1.padLinks.filter (fun q => decide (q ≠ (pad, e0))),
                teePads := p1.teePads.erase pad }, ?_, ?_, ?_⟩
          · simp only [disconnect_elements_to_pipeline]
            rw [if_pos hm1, if_pos hm2]
          · show (p1.teePads.erase pad).length + 1 = p1.teePads.length
            rw [List.length_erase_of_mem hm2]
            omega
          · intro e he
            constructor
            · intro habs
              rw [detachFinalize] at habs
              simp only [List.mem_filter, decide_eq_true_eq] at habs
              exact habs.2 he
            · exact lookupState_syncStates EState.null e (e0 :: rest) _ he

def c2pW : PMod :=
  { teeExists := true, elems := [0], teePads := [5], nextPad := 6, links := [],
    padLinks := [], elemState := [(0, EState.playing)], runState := EState.playing }

def c2p1W : PMod :=
  { teeExists := true, elems := [0, 10, 11], teePads := [5, 6], nextPad := 7,
    links := [(10, 11)], padLinks := [(6, 10)],
    elemState := [(11, EState.playing), (10, EState.playing), (0, EState.playing)],
    runState := EState.playing }

/-- Witness for C2 on a concrete pipeline and a two-element branch. -/
theorem c2_attach_detach_witness :
    connect_elements_to_pipeline c2pW [10, 11] = Except.ok (c2p1W, 6) ∧
    (c2p1W.teePads.length = c2pW.teePads.length + 1 ∧
      ∃ p2, disconnect_elements_to_pipeline c2p1W 6 [10, 11] = Except.ok p2 ∧
        p2.teePads.length + 1 = c2p1W.teePads.length ∧
        ∀ e ∈ [10, 11], e ∉ (detachFinalize p2 [10, 11]).elems ∧
          lookupState (detachFinalize p2 [10, 11]).elemState e = some EState.null) :=
  ⟨by rfl, c2_attach_detach c2pW [10, 11] c2p1W 6 (by rfl)⟩

/-- C1: for every StopPipeline issued with an Active recording, every
transition of the pipeline to the Null state is strictly preceded in
the trace by the recording-stopped notification, and the teardown
performed by the `Future::sequence` continuation happens only after the
recording-drain future has resolved — `Future::sequence` over the
detach future and the main end-of-stream future orders the final
teardown after both. -/
theorem c1_drain_before_null (playing : Bool) (td tm : Nat) (aliveSeq aliveTO : Bool) :
    precededBy isRecordingStopped isSetNull
        (stopPipelineTrace playing true td tm aliveSeq aliveTO) = true ∧
    precededBy isResolveRecord isSetNullSeq
        (stopPipelineTrace playing true td tm aliveSeq aliveTO) = true := by
  cases playing with
  | false => exact ⟨rfl, rfl⟩
  | true =>
    rcases Nat.le_total td tm with hle | hle
    · have hmax : max td tm = tm := max_eq_right hle
      cases aliveSeq <;> cases aliveTO <;>
        (simp only [stopPipelineTrace, hmax, if_true, eq_self_iff_true, List.cons_append,
          List.nil_append, List.singleton_append, osort, oinsert]
         split_ifs <;>
          (try simp_all [oinsert, flattenGroups, precededBy, precededByAux, isRecordingStopped,
            isSetNull, isResolveRecord, isSetNullSeq]) <;>
          (try split_ifs) <;>
          (try simp_all [oinsert, flattenGroups, precededBy, precededByAux, isRecordingStopped,
            isSetNull, isResolveRecord, isSetNullSeq]) <;>
          (try split_ifs) <;>
          (try simp_all [oinsert, flattenGroups, precededBy, precededByAux, isRecordingStopped,
            isSetNull, isResolveRecord, isSetNullSeq]))
    · have hmax : max td tm = td := max_eq_left hle
      cases aliveSeq <;> cases aliveTO <;>
        (simp only [stopPipelineTrace, hmax, if_true, eq_self_iff_true, List.cons_append,
          List.nil_append, List.singleton_append, osort, oinsert]
         split_ifs <;>
          (try simp_all [oinsert, flattenGroups, precededBy, precededByAux, isRecordingStopped,
            isSetNull, isResolveRecord, isSetNullSeq]) <;>
          (try split_ifs) <;>
          (try simp_all [oinsert, flattenGroups, precededBy, precededByAux, isRecordingStopped,
            isSetNull, isResolveRecord, isSetNullSeq]) <;>
          (try split_ifs) <;>
          (try simp_all [oinsert, flattenGroups, precededBy, precededByAux, isRecordingStopped,
            isSetNull, isResolveRecord, isSetNullSeq]))

/-- C6 counterexample: both end-of-stream probes fire early (instants 1
and 2), so teardown completes through the `Future::sequence`
continuation at instant 2 — well inside the 10-second bound — yet the
one-shot timeout source, which is never cancelled, still fires at
instant 10 and emits the warning toast (the pipeline weak reference
still upgrades).  The warning is therefore not emitted only when the
timeout is actually exceeded. -/
theorem c6_counterexample :
    containsEv 2 Ev.setNullSeq (stopPipelineTrace true true 1 2 true true) = true ∧
    containsEv 10 Ev.showToast (stopPipelineTrace true true 1 2 true true) = true ∧
    countToast (stopPipelineTrace true true 1 2 true true) = 1 := by
  decide

/-- C6 (amended): for every StopPipeline teardown — recording active or
not — whenever the one-shot timeout closure runs with the pipeline weak
reference still alive, it forces a transition to Idle
(`PollingChanged(false)`, slave_video.rs line 306) and the pipeline to
Null at instant 10 — so the stop never hangs past the 10-second
bound — and emits exactly one warning toast, regardless of when (or
whether before the bound) the end-of-stream confirmations arrive; the
timer is never cancelled, so this includes runs whose teardown already
completed, and the warning is suppressed only when the weak pipeline
reference has died. -/
theorem c6_timeout_forces_null (recording : Bool) (td tm : Nat) (aliveSeq : Bool) :
    countToast (stopPipelineTrace true recording td tm aliveSeq true) = 1 ∧
    containsEv 10 Ev.setNullTimeout (stopPipelineTrace true recording td tm aliveSeq true)
      = true ∧
    containsEv 10 (Ev.pollingChanged false) (stopPipelineTrace true recording td tm aliveSeq true)
      = true ∧
    countToast (stopPipelineTrace true recording td tm aliveSeq false) = 0 := by
  cases recording with
  | false =>
    cases aliveSeq <;>
      (simp only [stopPipelineTrace, if_true, eq_self_iff_true, List.cons_append,
        List.nil_append, List.singleton_append, osort, oinsert]
       split_ifs <;>
        (try simp_all [oinsert, flattenGroups, countToast, containsEv]) <;>
        (try split_ifs) <;>
        (try simp_all [oinsert, flattenGroups, countToast, containsEv]) <;>
        (try split_ifs) <;>
        (try simp_all [oinsert, flattenGroups, countToast, containsEv]))
  | true =>
  rcases Nat.le_total td tm with hle | hle
  · have hmax : max td tm = tm := max_eq_right hle
    cases aliveSeq <;>
      (simp only [stopPipelineTrace, hmax, if_true, eq_self_iff_true, List.cons_append,
        List.nil_append, List.singleton_append, osort, oinsert]
       split_ifs <;>
        (try simp_all [oinsert, flattenGroups, countToast, containsEv]) <;>
        (try split_ifs) <;>
        (try simp_all [oinsert, flattenGroups, countToast, containsEv]) <;>
        (try split_ifs) <;>
        (try simp_all [oinsert, flattenGroups, countToast, containsEv]))
  · have hmax : max td tm = td := max_eq_left hle
    cases aliveSeq <;>
      (simp only [stopPipelineTrace, hmax, if_true, eq_self_iff_true, List.cons_append,
        List.nil_append, List.singleton_append, osort, oinsert]
       split_ifs <;>
        (try simp_all [oinsert, flattenGroups, countToast, containsEv]) <;>
        (try split_ifs) <;>
        (try simp_all [oinsert, flattenGroups, countToast, containsEv]) <;>
        (try split_ifs) <;>
        (try simp_all [oinsert, flattenGroups, countToast, containsEv]))
